import Mathlib

/-!
Shallow embedding of the DAO proposal bot (`bot.js`) and verification of the
specified properties of its durable store, upstream fetcher, dedup-and-notify
pipeline, and command/scheduler surface.

Conventions of the embedding:
* JS strings are Lean `String`s; JS arrays are Lean `List`s.
* The persisted seen-set file `proposal_store.json` holds a JSON array of id
  strings; it is embedded as a `List String` threaded through the functions
  that read and write it.
* `async` functions that can throw are embedded with `Except String` results
  or with explicit outcome fields; network calls whose outcome depends on the
  outside world take an oracle argument describing the responses.
-/

namespace DaoBot

/-- The record shape built by `fetchProposals` (bot.js lines 93-101). -/
structure ProposalRecord where
  id : String
  title : String
  description : String
  state : String
  votingEndTime : String
deriving DecidableEq, Repr

/-- A governance account as returned by `getGovernanceAccountsByRealm`;
only its public key (already rendered in base58 form as a string) matters
to the program. -/
structure GovernanceAccount where
  publicKey : String
deriving DecidableEq, Repr

/-- A raw proposal as returned by `getAllProposals`.  `publicKey` and
`governance` are base58-rendered keys; `stateTag` is the single key of the
JS `proposal.state` object (`Object.keys(proposal.state)[0]`);
`votingCompletedAt` is the optional unix timestamp in seconds. -/
structure RawProposal where
  publicKey : String
  name : String
  descriptionLink : Option String
  stateTag : String
  votingCompletedAt : Option Int
  governance : String
deriving DecidableEq, Repr

/-- `new Date(t * 1000).toISOString()` at bot.js line 99, abstracted as an
injective rendering of the timestamp; no verified property depends on the
exact ISO text. -/
def isoString (secs : Int) : String :=
  "date:" ++ toString secs

/-- The per-proposal mapping at bot.js lines 93-101. -/
def mapProposal (p : RawProposal) : ProposalRecord :=
  { id := p.publicKey
    title := p.name
    description := p.descriptionLink.getD "No description provided."
    state := p.stateTag
    votingEndTime :=
      match p.votingCompletedAt with
      | some t => isoString t
      | none => "No end time available" }

/-- `governanceAccounts.map(account => account.publicKey.toBase58())`
(bot.js line 83). -/
def govKeys (accs : List GovernanceAccount) : List String :=
  accs.map (·.publicKey)

/-- `rawProposals.filter(p => governanceAccountPubkeys.includes(p.governance.toBase58()))`
(bot.js lines 87-89). -/
def filterByRealm (keys : List String) (raw : List RawProposal) : List RawProposal :=
  raw.filter (fun p => keys.contains p.governance)

/-- Outcome of one iteration of the `while` body in `fetchProposals`: the two
RPC reads both succeed, or the first exception thrown is a 429 rate-limit
response, or it is some other error. -/
inductive AttemptOutcome where
  | success (govAccounts : List GovernanceAccount) (raw : List RawProposal)
  | rate429
  | otherError (msg : String)
deriving DecidableEq, Repr

/-- Observable outcome of a `fetchProposals` run: the waits actually
performed (ms, in order), the number of attempts made, and the returned list
or thrown error. -/
structure FetchResult where
  delays : List Nat
  attempts : Nat
  result : Except String (List ProposalRecord)
deriving Repr

/-- bot.js line 108 calls `await delay(delayTime)`, but no `delay` function is
defined or imported anywhere in the program, so evaluating the call throws
`ReferenceError: delay is not defined` out of the `catch` block.  The `ok`
branch of this embedding (an actually performed wait) is therefore dead code,
exactly as the corresponding retry continuation is in the source. -/
def delayCall (_ms : Nat) : Except String Unit :=
  Except.error "ReferenceError: delay is not defined"

/-- The retry loop of `fetchProposals` (bot.js lines 76-116): `retries`
counts down from 5, `delayTime` doubles from 500, `attemptIdx` indexes the
oracle of attempt outcomes. -/
def fetchLoop (oracle : Nat → AttemptOutcome) (retries delayTime attemptIdx : Nat) :
    FetchResult :=
  match retries with
  | 0 => ⟨[], 0, Except.ok []⟩
  | r + 1 =>
    match oracle attemptIdx with
    | .success govAccounts raw =>
      ⟨[], 1, Except.ok ((filterByRealm (govKeys govAccounts) raw).map mapProposal)⟩
    | .rate429 =>
      match delayCall delayTime with
      | .error m => ⟨[], 1, Except.error m⟩
      | .ok _ =>
        let rest := fetchLoop oracle r (delayTime * 2) (attemptIdx + 1)
        ⟨delayTime :: rest.delays, rest.attempts + 1, rest.result⟩
    | .otherError m => ⟨[], 1, Except.error m⟩

/-- `fetchProposals` (bot.js lines 71-120): 5 retries, initial delay 500ms. -/
def fetchProposals (oracle : Nat → AttemptOutcome) : FetchResult :=
  fetchLoop oracle 5 500 0

/-- `isNewProposal` (bot.js lines 51-56): true iff the id is not in the
persisted store. -/
def isNewProposal (store : List String) (id : String) : Bool :=
  !(store.contains id)

/-- Result of `saveProposal`: the new persisted list and whether a file write
was performed. -/
structure SaveResult where
  store : List String
  wrote : Bool
deriving DecidableEq, Repr

/-- `saveProposal` (bot.js lines 59-68): push and write only when the id is
not already present. -/
def saveProposal (store : List String) (id : String) : SaveResult :=
  if store.contains id then ⟨store, false⟩ else ⟨store ++ [id], true⟩

lemma fetchLoop_success (oracle : Nat → AttemptOutcome) (r delayTime attemptIdx : Nat)
    (g : List GovernanceAccount) (raw : List RawProposal)
    (h : oracle attemptIdx = AttemptOutcome.success g raw) :
    fetchLoop oracle (r + 1) delayTime attemptIdx =
      ⟨[], 1, Except.ok ((filterByRealm (govKeys g) raw).map mapProposal)⟩ := by
  simp [fetchLoop, h]

lemma fetchLoop_otherError (oracle : Nat → AttemptOutcome) (r delayTime attemptIdx : Nat)
    (m : String) (h : oracle attemptIdx = AttemptOutcome.otherError m) :
    fetchLoop oracle (r + 1) delayTime attemptIdx = ⟨[], 1, Except.error m⟩ := by
  simp [fetchLoop, h]

lemma fetchLoop_rate429 (oracle : Nat → AttemptOutcome) (r delayTime attemptIdx : Nat)
    (h : oracle attemptIdx = AttemptOutcome.rate429) :
    fetchLoop oracle (r + 1) delayTime attemptIdx =
      ⟨[], 1, Except.error "ReferenceError: delay is not defined"⟩ := by
  simp [fetchLoop, h, delayCall]

lemma mem_saveProposal_store {store : List String} {x id : String}
    (h : x ∈ (saveProposal store id).store) : x ∈ store ∨ x = id := by
  unfold saveProposal at h
  split at h
  · exact Or.inl h
  · simp only [List.mem_append, List.mem_singleton] at h
    exact h

lemma saveProposal_nodup {store : List String} (id : String) (hn : store.Nodup) :
    (saveProposal store id).store.Nodup := by
  unfold saveProposal
  split
  · exact hn
  · next hc =>
    have hid : id ∉ store := fun hmem => hc (List.elem_iff.mpr hmem)
    simp [List.nodup_append, hn, hid]

lemma foldl_saveProposal_nodup (ids : List String) :
    ∀ store : List String, store.Nodup →
      (ids.foldl (fun s i => (saveProposal s i).store) store).Nodup := by
  induction ids with
  | nil => intro store hn; simpa using hn
  | cons i rest ih =>
    intro store hn
    exact ih _ (saveProposal_nodup i hn)

/-- C5: the spec claims 5 consecutive 429 responses produce waits of exactly
500, 1000, 2000, 4000, 8000 ms and then an empty result; in fact the `delay`
helper called at bot.js line 108 is never defined, so the first 429 throws
`ReferenceError: delay is not defined`: the run performs no wait, makes a
single attempt, and propagates an error instead of returning `[]`. -/
theorem rate_limit_throws_reference_error :
    fetchProposals (fun _ => AttemptOutcome.rate429) =
      ⟨[], 1, Except.error "ReferenceError: delay is not defined"⟩ := rfl

/-- C6: a fetch attempt that fails with a non-rate-limit error aborts
immediately: no wait is performed, no further attempt is made, and the error
is propagated to the caller. -/
theorem fetch_aborts_on_other_error (oracle : Nat → AttemptOutcome)
    (r delayTime attemptIdx : Nat) (m : String)
    (h : oracle attemptIdx = AttemptOutcome.otherError m) :
    fetchLoop oracle (r + 1) delayTime attemptIdx = ⟨[], 1, Except.error m⟩ :=
  fetchLoop_otherError oracle r delayTime attemptIdx m h

/-- Witness for C6 at a concrete run: the very first attempt fails with a
non-429 error and `fetchProposals` propagates it with no delay and no retry. -/
theorem fetch_aborts_on_other_error_witness :
    fetchLoop (fun _ => AttemptOutcome.otherError "boom") (4 + 1) 500 0 =
      ⟨[], 1, Except.error "boom"⟩ :=
  fetch_aborts_on_other_error (fun _ => AttemptOutcome.otherError "boom") 4 500 0 "boom" rfl

/-- C7: a successful fetch returns exactly the proposals whose owning
governance account is among the governance accounts enumerated for the realm:
the result is the mapped image of the realm-filtered raw list, and a raw
proposal survives the filter iff its `governance` key is in the enumerated
key set. -/
theorem fetch_scopes_proposals_to_realm (oracle : Nat → AttemptOutcome)
    (g : List GovernanceAccount) (raw : List RawProposal)
    (h : oracle 0 = AttemptOutcome.success g raw) :
    (fetchProposals oracle).result =
      Except.ok ((filterByRealm (govKeys g) raw).map mapProposal) ∧
    ∀ q : RawProposal,
      q ∈ filterByRealm (govKeys g) raw ↔ q ∈ raw ∧ q.governance ∈ govKeys g := by
  constructor
  · rw [show fetchProposals oracle = fetchLoop oracle (4 + 1) 500 0 from rfl,
      fetchLoop_success oracle 4 500 0 g raw h]
  · intro q
    simp [filterByRealm, List.mem_filter, List.elem_iff]

/-- Witness for C7, mirroring the spec's example: governance accounts
G1, G2 under the realm, proposals P1 owned by G1, P2 by G2, P3 by G3; the
fetch keeps exactly P1 and P2. -/
theorem fetch_scopes_proposals_to_realm_witness :
    filterByRealm
        (govKeys [⟨"G1"⟩, ⟨"G2"⟩])
        [⟨"P1", "p1", none, "voting", none, "G1"⟩,
         ⟨"P2", "p2", none, "voting", none, "G2"⟩,
         ⟨"P3", "p3", none, "voting", none, "G3"⟩] =
      [⟨"P1", "p1", none, "voting", none, "G1"⟩,
       ⟨"P2", "p2", none, "voting", none, "G2"⟩] ∧
    ((⟨"P3", "p3", none, "voting", none, "G3"⟩ : RawProposal) ∈
        filterByRealm (govKeys [⟨"G1"⟩, ⟨"G2"⟩])
          [⟨"P1", "p1", none, "voting", none, "G1"⟩,
           ⟨"P2", "p2", none, "voting", none, "G2"⟩,
           ⟨"P3", "p3", none, "voting", none, "G3"⟩] ↔
      (⟨"P3", "p3", none, "voting", none, "G3"⟩ : RawProposal) ∈
          [⟨"P1", "p1", none, "voting", none, "G1"⟩,
           ⟨"P2", "p2", none, "voting", none, "G2"⟩,
           ⟨"P3", "p3", none, "voting", none, "G3"⟩] ∧
        "G3" ∈ govKeys [⟨"G1"⟩, ⟨"G2"⟩]) := by
  constructor
  · decide
  · exact
      (fetch_scopes_proposals_to_realm
        (fun _ => AttemptOutcome.success [⟨"G1"⟩, ⟨"G2"⟩]
          [⟨"P1", "p1", none, "voting", none, "G1"⟩,
           ⟨"P2", "p2", none, "voting", none, "G2"⟩,
           ⟨"P3", "p3", none, "voting", none, "G3"⟩])
        [⟨"G1"⟩, ⟨"G2"⟩]
        [⟨"P1", "p1", none, "voting", none, "G1"⟩,
         ⟨"P2", "p2", none, "voting", none, "G2"⟩,
         ⟨"P3", "p3", none, "voting", none, "G3"⟩] rfl).2
        ⟨"P3", "p3", none, "voting", none, "G3"⟩

/-- C10: marking an id as known is idempotent — an id already in the
persisted list causes no write and leaves the list unchanged — and the
persisted list never acquires duplicates: one save preserves `Nodup`, and so
does any sequence of saves starting from a duplicate-free list. -/
theorem saveProposal_idempotent (store : List String) (id : String) :
    (id ∈ store → saveProposal store id = ⟨store, false⟩) ∧
    (store.Nodup → (saveProposal store id).store.Nodup) ∧
    (store.Nodup → ∀ ids : List String,
      (ids.foldl (fun s i => (saveProposal s i).store) store).Nodup) := by
  refine ⟨fun h => ?_, fun hn => saveProposal_nodup id hn,
    fun hn ids => foldl_saveProposal_nodup ids store hn⟩
  unfold saveProposal
  split
  · rfl
  · next hc => exact absurd (List.elem_iff.mpr h) hc

/-- Witness for C10: saving an already-present id performs no write and
leaves the store untouched; saving twice leaves the list duplicate-free. -/
theorem saveProposal_idempotent_witness :
    saveProposal ["a"] "a" = ⟨["a"], false⟩ ∧
    (["a", "b", "a"].foldl (fun s i => (saveProposal s i).store) []).Nodup :=
  ⟨(saveProposal_idempotent ["a"] "a").1 (by decide),
   (saveProposal_idempotent [] "x").2.2 (by decide) ["a", "b", "a"]⟩

/-- A message sent to the destination channel by the pipeline: the
"No proposals found during this check." text (bot.js line 177), a per-record
embed notification (`sendDiscordNotification`, lines 123-135), the
"Detected N new proposals." summary (line 194), or the generic
"An error occurred while processing proposals." report (line 200). -/
inductive Msg where
  | noProposals
  | notification (p : ProposalRecord)
  | summary (n : Nat)
  | genericFailure
deriving DecidableEq, Repr

/-- `true` exactly for the generic failure report message. -/
def isGenericFailureMsg : Msg → Bool
  | Msg.genericFailure => true
  | _ => false

/-- `true` exactly for per-record notification messages. -/
def isNotificationMsg : Msg → Bool
  | Msg.notification _ => true
  | _ => false

/-- Observable outcome of one `processProposals` run: the messages
successfully delivered to the channel in order, the final persisted seen
list, and whether an exception escaped `processProposals` (which happens
only when the `channel.send` inside its `catch` block itself throws). -/
structure RunResult where
  sent : List Msg
  store : List String
  escaped : Bool
deriving DecidableEq, Repr

/-- Intermediate state of the `for (const proposal of proposals)` loop at
bot.js lines 183-191: current persisted list, messages delivered so far,
`newProposalsCount`, and whether the loop ran to completion (`false` means a
notification send threw, jumping to the surrounding `catch`). -/
structure LoopOut where
  store : List String
  sent : List Msg
  count : Nat
  completed : Bool
deriving DecidableEq, Repr

/-- The notify loop (bot.js lines 183-191).  Each channel send is resolved by
the oracle; within one run every attempted message is distinct, so an oracle
keyed on the message loses no generality.  On a send failure the thrown error
aborts the loop (`completed := false`).  A new id is saved only after its
notification send succeeded. -/
def notifyLoop (oracle : Msg → Bool) (ps : List ProposalRecord) (store : List String)
    (sent : List Msg) (count : Nat) : LoopOut :=
  match ps with
  | [] => ⟨store, sent, count, true⟩
  | p :: rest =>
    if isNewProposal store p.id then
      if oracle (Msg.notification p) then
        notifyLoop oracle rest (saveProposal store p.id).store
          (sent ++ [Msg.notification p]) (count + 1)
      else ⟨store, sent, count, false⟩
    else notifyLoop oracle rest store sent count

/-- The `catch` block of `processProposals` (bot.js lines 198-201): it
attempts one generic failure send; if that send itself throws, the exception
escapes `processProposals` (`escaped := true`). -/
def runCatch (oracle : Msg → Bool) (store : List String) (sent : List Msg) : RunResult :=
  if oracle Msg.genericFailure then ⟨sent ++ [Msg.genericFailure], store, false⟩
  else ⟨sent, store, true⟩

/-- `processProposals` (bot.js lines 169-202).  `fetchRes` is the outcome of
the awaited `fetchProposals` call: a thrown error or the returned list. -/
def processProposals (oracle : Msg → Bool)
    (fetchRes : Except String (List ProposalRecord)) (store : List String) : RunResult :=
  match fetchRes with
  | .error _ => runCatch oracle store []
  | .ok proposals =>
    if proposals.isEmpty then
      if oracle Msg.noProposals then ⟨[Msg.noProposals], store, false⟩
      else runCatch oracle store []
    else
      let out := notifyLoop oracle proposals store [] 0
      if out.completed then
        if 0 < out.count then
          if oracle (Msg.summary out.count) then
            ⟨out.sent ++ [Msg.summary out.count], out.store, false⟩
          else runCatch oracle out.store out.sent
        else ⟨out.sent, out.store, false⟩
      else runCatch oracle out.store out.sent

/-- One pass of `startMonitoring` (bot.js lines 138-166): `none` when the
configuration is incomplete or the channel invalid (the function returns
without running a cycle); otherwise one `processProposals` cycle runs and the
Bool records whether the `setTimeout` at line 162 scheduling the next cycle
was reached — an exception escaping `processProposals` jumps to the catch at
line 163, which does not reschedule. -/
def startMonitoringCycle (configOk channelOk : Bool)
    (fetchRes : Except String (List ProposalRecord)) (store : List String)
    (oracle : Msg → Bool) : Option (RunResult × Bool) :=
  if configOk && channelOk then
    let r := processProposals oracle fetchRes store
    some (r, !r.escaped)
  else none

lemma runCatch_store (oracle : Msg → Bool) (store : List String) (sent : List Msg) :
    (runCatch oracle store sent).store = store := by
  unfold runCatch
  split <;> rfl

lemma runCatch_sent_mono {oracle : Msg → Bool} {store : List String} {sent : List Msg}
    {m : Msg} (h : m ∈ sent) : m ∈ (runCatch oracle store sent).sent := by
  unfold runCatch
  split <;> simp [h]

lemma runCatch_ok {oracle : Msg → Bool} (store : List String) (sent : List Msg)
    (hg : oracle Msg.genericFailure = true) :
    runCatch oracle store sent = ⟨sent ++ [Msg.genericFailure], store, false⟩ := by
  simp [runCatch, hg]

lemma notifyLoop_sent_mono (oracle : Msg → Bool) (ps : List ProposalRecord) :
    ∀ (store : List String) (sent : List Msg) (count : Nat) (m : Msg), m ∈ sent →
      m ∈ (notifyLoop oracle ps store sent count).sent := by
  induction ps with
  | nil =>
    intro store sent count m hm
    simpa [notifyLoop] using hm
  | cons p rest ih =>
    intro store sent count m hm
    by_cases hnew : isNewProposal store p.id = true
    · by_cases hok : oracle (Msg.notification p) = true
      · simp only [notifyLoop, hnew, hok, if_true]
        exact ih _ _ _ m (by simp [hm])
      · simp [notifyLoop, hnew, hok, hm]
    · simp only [notifyLoop, hnew]
      simp only [Bool.not_eq_true] at hnew
      simp only [hnew, Bool.false_eq_true, if_false]
      exact ih _ _ _ m hm

lemma notifyLoop_store_src (oracle : Msg → Bool) (ps : List ProposalRecord) :
    ∀ (store : List String) (sent : List Msg) (count : Nat) (x : String),
      x ∈ (notifyLoop oracle ps store sent count).store →
      x ∈ store ∨ ∃ p : ProposalRecord,
        p.id = x ∧ Msg.notification p ∈ (notifyLoop oracle ps store sent count).sent := by
  induction ps with
  | nil =>
    intro store sent count x hx
    simp only [notifyLoop] at hx
    exact Or.inl hx
  | cons p rest ih =>
    intro store sent count x hx
    by_cases hnew : isNewProposal store p.id = true
    · by_cases hok : oracle (Msg.notification p) = true
      · simp only [notifyLoop, hnew, hok, if_true] at hx ⊢
        rcases ih _ _ _ x hx with h | ⟨q, hq, hmem⟩
        · rcases mem_saveProposal_store h with h' | h'
          · exact Or.inl h'
          · refine Or.inr ⟨p, h'.symm, ?_⟩
            exact notifyLoop_sent_mono oracle rest _ _ _ _ (by simp)
        · exact Or.inr ⟨q, hq, hmem⟩
      · simp only [notifyLoop, hnew, hok, if_true, Bool.false_eq_true, if_false] at hx ⊢
        exact Or.inl hx
    · simp only [Bool.not_eq_true] at hnew
      simp only [notifyLoop, hnew, Bool.false_eq_true, if_false] at hx ⊢
      exact ih _ _ _ x hx

lemma notifyLoop_filter_gf (oracle : Msg → Bool) (ps : List ProposalRecord) :
    ∀ (store : List String) (sent : List Msg) (count : Nat),
      ((notifyLoop oracle ps store sent count).sent).filter isGenericFailureMsg =
        sent.filter isGenericFailureMsg := by
  induction ps with
  | nil =>
    intro store sent count
    simp [notifyLoop]
  | cons p rest ih =>
    intro store sent count
    by_cases hnew : isNewProposal store p.id = true
    · by_cases hok : oracle (Msg.notification p) = true
      · simp only [notifyLoop, hnew, hok, if_true]
        rw [ih]
        simp [List.filter_append, isGenericFailureMsg]
      · simp [notifyLoop, hnew, hok]
    · simp only [Bool.not_eq_true] at hnew
      simp only [notifyLoop, hnew, Bool.false_eq_true, if_false]
      exact ih _ _ _

lemma processProposals_escaped_false (oracle : Msg → Bool)
    (fetchRes : Except String (List ProposalRecord)) (store : List String)
    (hg : oracle Msg.genericFailure = true) :
    (processProposals oracle fetchRes store).escaped = false := by
  have hrc : ∀ (s : List String) (sent : List Msg),
      (runCatch oracle s sent).escaped = false := by
    intro s sent
    simp [runCatch, hg]
  rcases fetchRes with e | proposals
  · simp only [processProposals]
    exact hrc _ _
  · by_cases he : proposals.isEmpty = true
    · by_cases hn : oracle Msg.noProposals = true
      · simp [processProposals, he, hn]
      · simp only [Bool.not_eq_true] at hn
        simp [processProposals, he, hn, hrc]
    · simp only [Bool.not_eq_true] at he
      simp only [processProposals, he, Bool.false_eq_true, if_false]
      split
      · split
        · split
          · rfl
          · exact hrc _ _
        · rfl
      · exact hrc _ _

lemma processProposals_gf_count (oracle : Msg → Bool)
    (fetchRes : Except String (List ProposalRecord)) (store : List String) :
    (((processProposals oracle fetchRes store).sent).filter isGenericFailureMsg).length ≤ 1 := by
  have hrc : ∀ (s : List String) (sent : List Msg),
      (sent.filter isGenericFailureMsg).length = 0 →
      ((runCatch oracle s sent).sent.filter isGenericFailureMsg).length ≤ 1 := by
    intro s sent h0
    unfold runCatch
    split
    · simp [List.filter_append, isGenericFailureMsg, h0]
    · simp [h0]
  rcases fetchRes with e | proposals
  · simp only [processProposals]
    exact hrc _ _ (by simp)
  · by_cases he : proposals.isEmpty = true
    · by_cases hn : oracle Msg.noProposals = true
      · simp [processProposals, he, hn, isGenericFailureMsg]
      · simp only [Bool.not_eq_true] at hn
        simp only [processProposals, he, if_true, hn, Bool.false_eq_true, if_false]
        exact hrc _ _ (by simp)
    · simp only [Bool.not_eq_true] at he
      simp only [processProposals, he, Bool.false_eq_true, if_false]
      have h0 : (((notifyLoop oracle proposals store [] 0).sent).filter
          isGenericFailureMsg).length = 0 := by
        rw [notifyLoop_filter_gf]
        simp
      split
      · split
        · split
          · simp only [List.filter_append]
            simp [isGenericFailureMsg, List.length_eq_zero.mp h0]
          · exact hrc _ _ h0
        · simp [List.length_eq_zero.mp h0]
      · exact hrc _ _ h0

lemma processProposals_nonempty_shape (oracle : Msg → Bool)
    (proposals : List ProposalRecord) (store : List String)
    (he : proposals.isEmpty = false) :
    (processProposals oracle (Except.ok proposals) store).store =
      (notifyLoop oracle proposals store [] 0).store ∧
    ∀ m ∈ (notifyLoop oracle proposals store [] 0).sent,
      m ∈ (processProposals oracle (Except.ok proposals) store).sent := by
  simp only [processProposals, he, Bool.false_eq_true, if_false]
  constructor
  · split
    · split
      · split
        · rfl
        · exact runCatch_store _ _ _
      · rfl
    · exact runCatch_store _ _ _
  · intro m hm
    split
    · split
      · split
        · simp [hm]
        · exact runCatch_sent_mono hm
      · exact hm
    · exact runCatch_sent_mono hm

/-- C1: an id appears in the persisted seen list after a pipeline run only if
it was already there before the run or its notification was successfully
delivered during the run: `saveProposal` is reached only after the awaited
notification send returned without throwing, so a record is never marked
known without a prior successful notify. -/
theorem mark_known_only_after_notify (oracle : Msg → Bool)
    (fetchRes : Except String (List ProposalRecord)) (store : List String) (x : String)
    (hx : x ∈ (processProposals oracle fetchRes store).store) :
    x ∈ store ∨ ∃ p : ProposalRecord,
      p.id = x ∧ Msg.notification p ∈ (processProposals oracle fetchRes store).sent := by
  rcases fetchRes with e | proposals
  · have hst : (processProposals oracle (Except.error e) store).store = store := by
      simp only [processProposals]
      exact runCatch_store _ _ _
    rw [hst] at hx
    exact Or.inl hx
  · by_cases he : proposals.isEmpty = true
    · have hst : (processProposals oracle (Except.ok proposals) store).store = store := by
        by_cases hn : oracle Msg.noProposals = true
        · simp [processProposals, he, hn]
        · simp only [Bool.not_eq_true] at hn
          simp only [processProposals, he, if_true, hn, Bool.false_eq_true, if_false]
          exact runCatch_store _ _ _
      rw [hst] at hx
      exact Or.inl hx
    · simp only [Bool.not_eq_true] at he
      obtain ⟨hst, hsent⟩ := processProposals_nonempty_shape oracle proposals store he
      rw [hst] at hx
      rcases notifyLoop_store_src oracle proposals store [] 0 x hx with h | ⟨p, hp, hmem⟩
      · exact Or.inl h
      · exact Or.inr ⟨p, hp, hsent _ hmem⟩

/-- Witness for C1: on a run over one fresh proposal with all sends
succeeding, its id ends up in the seen list and the disjunction certifies a
delivered notification for it. -/
theorem mark_known_only_after_notify_witness :
    "id0" ∈ (processProposals (fun _ => true)
      (Except.ok [⟨"id0", "t", "d", "voting", "e"⟩]) []).store ∧
    ("id0" ∈ ([] : List String) ∨ ∃ p : ProposalRecord, p.id = "id0" ∧
      Msg.notification p ∈ (processProposals (fun _ => true)
        (Except.ok [⟨"id0", "t", "d", "voting", "e"⟩]) []).sent) :=
  ⟨by decide,
   mark_known_only_after_notify (fun _ => true)
     (Except.ok [⟨"id0", "t", "d", "voting", "e"⟩]) [] "id0" (by decide)⟩

/-- C3 counterexample: a fetch error is caught by the pipeline's catch block,
but the generic failure send there throws as well; the exception escapes
`processProposals`, no failure message reaches the destination, and the
`setTimeout` rescheduling the next cycle is skipped (second component
`false`), so the error does prevent the Scheduler from scheduling its next
cycle. -/
theorem error_report_failure_kills_scheduler :
    startMonitoringCycle true true (Except.error "boom") [] (fun _ => false) =
      some (⟨[], [], true⟩, false) := rfl

/-- C3 amended: every non-rate-limit error in a cycle is caught at the
pipeline boundary and converted into at most one generic failure message, and
the next cycle is scheduled — provided the generic failure send to the
destination itself succeeds; a thrown fetch error in particular yields
exactly the single generic failure message and an unchanged seen list. -/
theorem errors_caught_when_report_send_succeeds (oracle : Msg → Bool)
    (fetchRes : Except String (List ProposalRecord)) (store : List String)
    (hg : oracle Msg.genericFailure = true) :
    (processProposals oracle fetchRes store).escaped = false ∧
    (((processProposals oracle fetchRes store).sent).filter isGenericFailureMsg).length ≤ 1 ∧
    (∀ e, fetchRes = Except.error e →
      processProposals oracle fetchRes store = ⟨[Msg.genericFailure], store, false⟩) ∧
    startMonitoringCycle true true fetchRes store oracle =
      some (processProposals oracle fetchRes store, true) := by
  refine ⟨processProposals_escaped_false oracle fetchRes store hg,
    processProposals_gf_count oracle fetchRes store, ?_, ?_⟩
  · intro e hres
    subst hres
    simp only [processProposals]
    rw [runCatch_ok store [] hg]
    simp
  · simp only [startMonitoringCycle, Bool.and_self, if_true,
      processProposals_escaped_false oracle fetchRes store hg]
    rfl

/-- Witness for C3 amended: with all sends succeeding, a thrown fetch error
produces exactly one generic failure message, does not escape, and the next
cycle is scheduled. -/
theorem errors_caught_when_report_send_succeeds_witness :
    (processProposals (fun _ => true) (Except.error "boom") []).escaped = false ∧
    processProposals (fun _ => true) (Except.error "boom") [] =
      ⟨[Msg.genericFailure], [], false⟩ ∧
    startMonitoringCycle true true (Except.error "boom") [] (fun _ => true) =
      some (processProposals (fun _ => true) (Except.error "boom") [], true) :=
  ⟨(errors_caught_when_report_send_succeeds (fun _ => true) (Except.error "boom") [] rfl).1,
   (errors_caught_when_report_send_succeeds (fun _ => true) (Except.error "boom") [] rfl).2.2.1
     "boom" rfl,
   (errors_caught_when_report_send_succeeds (fun _ => true) (Except.error "boom") [] rfl).2.2.2⟩

/-- C9: when the fetch returns an empty sequence, the run delivers exactly
the single informational message — no notifications, no summary — returns,
and leaves the seen list untouched (provided that informational send
succeeds). -/
theorem empty_fetch_sends_single_info_message (oracle : Msg → Bool) (store : List String)
    (h : oracle Msg.noProposals = true) :
    processProposals oracle (Except.ok []) store = ⟨[Msg.noProposals], store, false⟩ := by
  simp [processProposals, h]

/-- Witness for C9 at a concrete store and an all-succeeding channel. -/
theorem empty_fetch_sends_single_info_message_witness :
    processProposals (fun _ => true) (Except.ok []) ["seen"] =
      ⟨[Msg.noProposals], ["seen"], false⟩ :=
  empty_fetch_sends_single_info_message (fun _ => true) ["seen"] rfl

/-- JS `String.prototype.startsWith`, embedded over the character data (the
built-in `String.startsWith` is not kernel-reducible). -/
def hasPrefixChars : List Char → List Char → Bool
  | _, [] => true
  | [], _ :: _ => false
  | c :: cs, d :: ds => c == d && hasPrefixChars cs ds

/-- `content.startsWith(pre)` as used at bot.js lines 210 and 229. -/
def jsStartsWith (s pre : String) : Bool :=
  hasPrefixChars s.data pre.data

/-- Character-level worker for `content.split(" ")`. -/
def splitSpaceAux : List Char → List Char → List String
  | [], acc => [String.mk acc.reverse]
  | c :: cs, acc =>
    if c == ' ' then String.mk acc.reverse :: splitSpaceAux cs []
    else splitSpaceAux cs (c :: acc)

/-- `content.split(" ")` as used at bot.js line 211 (consecutive separators
yield empty segments, as in JS). -/
def jsSplitSpace (s : String) : List String :=
  splitSpaceAux s.data []

/-- The persisted `config.json` object: each field is absent (`none`) or a
string, as written by the `!setup` and `!setchannel` handlers. -/
structure BotConfig where
  realmId : Option String
  programId : Option String
  notificationChannelId : Option String
deriving DecidableEq, Repr

/-- JS truthiness of an optional string field (absent and `""` are falsy). -/
def jsTruthy : Option String → Bool
  | none => false
  | some s => !(s.isEmpty)

/-- The configuration-completeness test of bot.js lines 140 and 241:
`realmId && programId && notificationChannelId` all truthy. -/
def configComplete (c : BotConfig) : Bool :=
  jsTruthy c.realmId && jsTruthy c.programId && jsTruthy c.notificationChannelId

/-- Global program state as far as the command surface observes and mutates
it: the persisted config and seen list, how many `processProposals` cycles
are currently in flight (each awaited cycle suspends at its network calls,
letting further Discord events interleave), whether a `monitoringTimeout`
timer is pending, and the accumulated user-visible reply texts. -/
structure SystemState where
  config : BotConfig
  store : List String
  inFlight : Nat
  timerPending : Bool
  log : List String
deriving DecidableEq, Repr

/-- An event on the cooperative single-threaded timeline: an incoming
Discord message (bot.js line 205) or the completion of an in-flight
`processProposals` cycle (which, on the monitoring path, is followed by the
`setTimeout` at line 162). -/
inductive Event where
  | message (authorIsBot : Bool) (content : String) (channelId : String)
  | cycleComplete
deriving DecidableEq, Repr

/-- The synchronous prelude of `startMonitoring` (bot.js lines 138-162):
completeness check, channel fetch and validity check, `clearTimeout` of the
pending timer, and launching `processProposals` (one more cycle in flight).
The launched cycle finishes later, as an `Event.cycleComplete`. -/
def startMonitoringStep (valid : String → Bool) (st : SystemState) : SystemState :=
  if configComplete st.config then
    match st.config.notificationChannelId with
    | some ch =>
      if valid ch then { st with timerPending := false, inFlight := st.inFlight + 1 }
      else st
    | none => st
  else st

/-- The `!setup` branch (bot.js lines 210-227). -/
def handleSetup (valid : String → Bool) (content : String) (st : SystemState) :
    SystemState :=
  if jsStartsWith content "!setup" then
    let args := jsSplitSpace content
    if args.length < 3 then
      { st with log := st.log ++ ["Usage: `!setup <REALM_ID> <PROGRAM_ID>`"] }
    else
      let cfg : BotConfig :=
        ⟨args.get? 1, args.get? 2, st.config.notificationChannelId⟩
      let stAfter : SystemState :=
        ⟨cfg, st.store, st.inFlight, st.timerPending,
          st.log ++ ["Setup complete. Run `!setchannel` to set the notification channel."]⟩
      if jsTruthy cfg.notificationChannelId then startMonitoringStep valid stAfter
      else stAfter
  else st

/-- The `!setchannel` branch (bot.js lines 229-238). -/
def handleSetChannel (valid : String → Bool) (content channelId : String)
    (st : SystemState) : SystemState :=
  if jsStartsWith content "!setchannel" then
    let cfg := { st.config with notificationChannelId := some channelId }
    let st' := { st with config := cfg, log := st.log ++ ["Notification channel set."] }
    if jsTruthy cfg.realmId && jsTruthy cfg.programId then startMonitoringStep valid st'
    else st'
  else st

/-- The `!fetch` branch (bot.js lines 240-251): after the configuration and
channel checks it always awaits a fresh `processProposals` run; no check of
any in-flight cycle is performed. -/
def handleFetch (valid : String → Bool) (content : String) (st : SystemState) :
    SystemState :=
  if content == "!fetch" then
    if !(configComplete st.config) then
      { st with log := st.log ++ ["Bot is not fully configured. Use `!setup` and `!setchannel` first."] }
    else
      match st.config.notificationChannelId with
      | some ch =>
        if valid ch then { st with inFlight := st.inFlight + 1 }
        else { st with log := st.log ++ ["Notification channel is invalid. Please reconfigure with `!setchannel`."] }
      | none => st
  else st

/-- One event of the `messageCreate` handler (bot.js lines 205-252; the three
command branches are separate sequential `if`s over the same loaded config)
or a cycle completion (decrement in-flight; the monitoring path then arms the
next timer via the `setTimeout` at line 162). -/
def step (valid : String → Bool) (st : SystemState) : Event → SystemState
  | Event.message authorIsBot content channelId =>
    if authorIsBot then st
    else handleFetch valid content
      (handleSetChannel valid content channelId (handleSetup valid content st))
  | Event.cycleComplete =>
    { st with inFlight := st.inFlight - 1, timerPending := true }

/-- First-run state: `loadConfig` returns the empty config and the proposal
store is initialized to the empty array. -/
def initialState : SystemState :=
  ⟨⟨none, none, none⟩, [], 0, false, []⟩

/-- A fully configured state with one cycle in flight. -/
def runningState : SystemState :=
  ⟨⟨some "R", some "P", some "c1"⟩, [], 1, false, []⟩

/-- C2: the `messageCreate` handler has no `!reset` branch (its only commands
are `!setup`, `!setchannel` and `!fetch`), so a `!reset` message leaves the
persisted configuration and seen list untouched and produces no reply: the
reset operation promised by the spec and by the readme does not exist. -/
theorem reset_command_is_ignored (valid : String → Bool) (st : SystemState) (ch : String) :
    step valid st (Event.message false "!reset" ch) = st := by
  have h1 : jsStartsWith "!reset" "!setup" = false := by decide
  have h2 : jsStartsWith "!reset" "!setchannel" = false := by decide
  have h3 : ("!reset" == "!fetch") = false := by decide
  simp [step, handleSetup, handleSetChannel, handleFetch, h1, h2, h3]

/-- C4 counterexample: after `!setup` and `!setchannel` a monitoring cycle is
launched and still in flight (`inFlight = 1`, no completion event yet); a
manual `!fetch` arriving at that point starts a second concurrent
`processProposals` run (`inFlight = 2`) instead of being rejected or
deduplicated. -/
theorem manual_trigger_overlaps_running_cycle :
    (([Event.message false "!setup R P" "c1",
       Event.message false "!setchannel" "c1"].foldl
        (step (fun _ => true)) initialState).inFlight = 1) ∧
    (([Event.message false "!setup R P" "c1",
       Event.message false "!setchannel" "c1",
       Event.message false "!fetch" "c1"].foldl
        (step (fun _ => true)) initialState).inFlight = 2) := by decide

/-- C4 amended: a manual `!fetch` trigger is never rejected on account of a
running cycle — the handler checks only configuration completeness and
channel validity, never the in-flight status, so in every such state
(including any with a cycle already running) it starts one more concurrent
fetch/notify sequence. -/
theorem fetch_trigger_always_starts_cycle (valid : String → Bool) (st : SystemState)
    (msgCh ch : String) (hc : configComplete st.config = true)
    (hch : st.config.notificationChannelId = some ch) (hv : valid ch = true) :
    (step valid st (Event.message false "!fetch" msgCh)).inFlight = st.inFlight + 1 := by
  have h1 : jsStartsWith "!fetch" "!setup" = false := by decide
  have h2 : jsStartsWith "!fetch" "!setchannel" = false := by decide
  simp [step, handleSetup, handleSetChannel, handleFetch, h1, h2, hc, hch, hv]

/-- Witness for C4 amended: from a state with one cycle already in flight,
`!fetch` brings the number of concurrent cycles to two. -/
theorem fetch_trigger_always_starts_cycle_witness :
    (step (fun _ => true) runningState (Event.message false "!fetch" "c1")).inFlight =
      1 + 1 :=
  fetch_trigger_always_starts_cycle (fun _ => true) runningState "c1" "c1" rfl rfl rfl

end DaoBot
